import Mathlib

/-!
Shallow embedding of the shopping-cart backend
(`assignment1/backend/main.py`) and verification of the spec claims
about its pricing engine, cart store, discount lookup and product
gateway.

Modelling conventions:
* SQLite `REAL` values (prices, percentages, money amounts) are
  modelled as exact rationals `ℚ`; Python `round(x, 2)` is modelled as
  round-half-to-even on the exact value, `roundTo2` below.
* The database is modelled as an explicit `Store` value threaded
  through every operation (`cart_items` in insertion order, rowid
  order; `discount_codes`; `product_service_config` rows in rowid
  order; the in-process TTL product cache as an association list,
  ignoring expiry, newest entry first).
* SQLite `SELECT ... LIMIT 1` without `ORDER BY` is modelled as the
  first row in rowid (insertion) order, which is what a full table
  scan of a plain table yields.
* The external HTTP world is an oracle `Upstream` mapping
  (endpoint, product id) to an outcome: a parsed JSON product, or one
  of the failure modes the `except` clause of
  `fetch_product_from_external_api` catches.
* Endpoints are modelled at an explicitly supplied `session_id` (the
  `session_id` query-parameter path); `get_or_create_session_id` is
  orthogonal to every claim treated here.
-/

/-- Round-half-to-even of an exact rational to an integer, the
behaviour of Python `round` on the exact value. -/
def roundHalfEven (x : ℚ) : ℤ :=
  let n : ℤ := ⌊x⌋
  let frac : ℚ := x - (n : ℚ)
  if frac < 1/2 then n
  else if 1/2 < frac then n + 1
  else if n % 2 = 0 then n else n + 1

/-- Python `round(x, 2)` on the exact value. -/
def roundTo2 (x : ℚ) : ℚ := ((roundHalfEven (x * 100) : ℤ) : ℚ) / 100

/-- A parsed product JSON object, fields read with `dict.get` in the
source; only the keys the backend reads are modelled. -/
structure Product where
  name : Option String
  price : Option ℚ
  stock : Option Int
  vendor_id : Option String
  vendor_name : Option String
  image_url : Option String
deriving DecidableEq

/-- A row of the `cart_items` table. -/
structure LineItem where
  id : Nat
  session_id : String
  product_id : String
  product_name : Option String
  price : ℚ
  quantity : Int
  vendor_id : Option String
  vendor_name : Option String
  image_url : Option String
deriving DecidableEq

/-- A row of the `discount_codes` table. -/
structure DiscountCode where
  code : String
  percentage : ℚ
  is_active : Bool
deriving DecidableEq

/-- A row of the `product_service_config` table. -/
structure ConfigRow where
  endpoint : String
  api_key : Option String
  headers : String
  is_active : Bool
deriving DecidableEq

/-- The backend state: database tables plus the in-process product
cache.  `nextItemId` models the `cart_items` AUTOINCREMENT counter;
lists are kept in rowid (insertion) order, the cache newest-first. -/
structure Store where
  items : List LineItem
  nextItemId : Nat
  discount_codes : List DiscountCode
  configs : List ConfigRow
  cache : List (String × Product)
deriving DecidableEq

/-- The failure kinds of the endpoints: the `HTTPException` details
of the source, plus `operationalError` for the unhandled
`sqlite3.OperationalError` (HTTP 500) raised by the two UPDATE
statements, which set the non-existent `cart_items.updated_at`
column. -/
inductive CartError where
  | productNotFound
  | insufficientStock
  | invalidQuantity
  | itemNotFound
  | discountNotFound
  | operationalError
deriving DecidableEq

/-- Outcome of the HTTP attempt inside the `try` block of
`fetch_product_from_external_api`: a parsed body, or one of the
failure modes its `except` clause catches. -/
inductive FetchOutcome where
  | ok (p : Product)
  | transportError
  | statusError
  | malformedBody
  | headerConfigError
deriving DecidableEq

/-- The external HTTP world: endpoint and product id determine the
outcome of the GET to `{endpoint}/{product_id}`. -/
abbrev Upstream := String → String → FetchOutcome

/-- The four money fields returned by `calculate_totals`. -/
structure Totals where
  subtotal : ℚ
  discount : ℚ
  shipping : ℚ
  total : ℚ
deriving DecidableEq

/-- The response model of `GET /api/v1/cart`. -/
structure CartResponse where
  session_id : String
  items : List LineItem
  subtotal : ℚ
  discount : ℚ
  shipping : ℚ
  total : ℚ
  discount_code : Option String
deriving DecidableEq

/-- The response of `POST /api/v1/cart/discount`. -/
structure ApplyResult where
  message : String
  code : String
  discount_amount : ℚ
deriving DecidableEq

/-- The response of `DELETE /api/v1/cart`: a bare confirmation
message, nothing else. -/
structure ClearResult where
  message : String
deriving DecidableEq

/-- The database as `init_db` seeds it on startup: three sample
discount codes and one sample product-service configuration row. -/
def initStore : Store :=
  { items := []
    nextItemId := 1
    discount_codes :=
      [ { code := ("SAVE10"), percentage := 10, is_active := true }
      , { code := ("SAVE20"), percentage := 20, is_active := true }
      , { code := ("SAVE15"), percentage := 15, is_active := true } ]
    configs :=
      [ { endpoint := ("https://api.example.com/products"), api_key := none
          headers := ("{}"), is_active := true } ]
    cache := [] }

/-- The rows of `cart_items` belonging to one session
(`WHERE session_id = ?`), in rowid order. -/
def sessionItems (st : Store) (sid : String) : List LineItem :=
  st.items.filter (fun it => it.session_id = sid)

/-- `price * quantity` of one row. -/
def itemAmount (it : LineItem) : ℚ := it.price * (it.quantity : ℚ)

/-- `SUM(price * quantity)` over a list of rows (`COALESCE(..., 0)`:
the empty sum is `0`). -/
def rawSubtotal (items : List LineItem) : ℚ :=
  (items.map itemAmount).sum

/-- The distinct values of a grouping key over a list of rows. -/
def groupKeys {K : Type} [DecidableEq K] (f : LineItem → K)
    (items : List LineItem) : List K :=
  (items.map f).dedup

/-- `SUM(price * quantity)` within one group. -/
def groupSubtotal {K : Type} [DecidableEq K] (f : LineItem → K)
    (items : List LineItem) (k : K) : ℚ :=
  rawSubtotal (items.filter (fun it => f it = k))

/-- The shipping contribution of one vendor group: `100` below the
`800` threshold, else `0` (strict `<`, so exactly `800` ships free). -/
def shipFor (q : ℚ) : ℚ := if q < 800 then 100 else 0

/-- Shipping summed over the groups induced by a grouping key. -/
def shippingBy {K : Type} [DecidableEq K] (f : LineItem → K)
    (items : List LineItem) : ℚ :=
  ((groupKeys f items).map (fun k => shipFor (groupSubtotal f items k))).sum

/-- The grouping key the source query uses:
`GROUP BY vendor_id, vendor_name`. -/
def pairKey (it : LineItem) : Option String × Option String :=
  (it.vendor_id, it.vendor_name)

/-- The shipping charge `calculate_totals` computes: `100` per
`(vendor_id, vendor_name)` group whose subtotal is strictly below
`800`. -/
def rawShipping (items : List LineItem) : ℚ :=
  shippingBy pairKey items

/-- The shipping formula in the words of the spec: groups taken by
`vendor_id` alone.  Stated for refinement comparison with
`rawShipping`. -/
def shippingByVendorId (items : List LineItem) : ℚ :=
  shippingBy (fun it => it.vendor_id) items

/-- `SELECT ... FROM discount_codes WHERE code = ? AND is_active = 1`:
first matching row, exact (case-sensitive, BINARY collation) string
comparison on `code`. -/
def lookupActiveCode (st : Store) (c : String) : Option DiscountCode :=
  st.discount_codes.find? (fun d => d.code = c && d.is_active)

/-- The discount amount `calculate_totals` computes before rounding:
`0` without a (truthy) code, else `subtotal * percentage / 100` using
the unrounded subtotal, `0` when the lookup misses. -/
def rawDiscount (st : Store) (items : List LineItem)
    (code? : Option String) : ℚ :=
  match code? with
  | none => 0
  | some c =>
    if c = ("") then 0
    else
      match lookupActiveCode st c with
      | some d => rawSubtotal items * (d.percentage / 100)
      | none => 0

/-- `calculate_totals(session_id, discount_code)`: vendor-grouped
shipping, unrounded subtotal and discount, each reported field rounded
to 2 decimals, the total rounded from the unrounded components. -/
def calculate_totals (st : Store) (sid : String)
    (code? : Option String) : Totals :=
  let items := sessionItems st sid
  let shipping := rawShipping items
  let subtotal := rawSubtotal items
  let discount := rawDiscount st items code?
  let total := subtotal - discount + shipping
  { subtotal := roundTo2 subtotal
    discount := roundTo2 discount
    shipping := roundTo2 shipping
    total := roundTo2 total }

/-- The cache key `f"product_{product_id}"`. -/
def cacheKey (pid : String) : String := ("product_") ++ pid

/-- TTL-cache lookup (expiry ignored): newest entry for the key. -/
def cacheLookup (st : Store) (pid : String) : Option Product :=
  (st.cache.find? (fun kv => kv.1 = cacheKey pid)).map (fun kv => kv.2)

/-- `SELECT endpoint, api_key, headers FROM product_service_config
WHERE is_active = 1 LIMIT 1`: the first active row in rowid order. -/
def activeConfig (st : Store) : Option ConfigRow :=
  st.configs.find? (fun cfg => cfg.is_active)

/-- `fetch_product_from_external_api(product_id)`: cache hit wins;
otherwise a missing config or empty endpoint yields `none`; otherwise
the HTTP attempt either yields a product (which is cached) or any
caught failure yields `none`. -/
def fetch_product (st : Store) (up : Upstream) (pid : String) :
    Option Product × Store :=
  match cacheLookup st pid with
  | some p => (some p, st)
  | none =>
    match activeConfig st with
    | none => (none, st)
    | some cfg =>
      if cfg.endpoint = ("") then (none, st)
      else
        match up cfg.endpoint pid with
        | FetchOutcome.ok p =>
            (some p, { st with cache := (cacheKey pid, p) :: st.cache })
        | _ => (none, st)

/-- The row predicate `session_id = ? AND product_id = ?`. -/
def pairPred (sid pid : String) (it : LineItem) : Bool :=
  it.session_id = sid && it.product_id = pid

/-- Python truthiness of the parsed product dict restricted to the
modelled keys: `not product_data` holds when every field is absent. -/
def productFalsy (p : Product) : Bool :=
  p.name = none && p.price = none && p.stock = none &&
  p.vendor_id = none && p.vendor_name = none && p.image_url = none

/-- The fresh `cart_items` row the INSERT branch of `add_to_cart`
writes, fields taken from the product snapshot with the `dict.get`
defaults of the source. -/
def newItem (st1 : Store) (sid pid : String) (p : Product)
    (qty : Int) : LineItem :=
  { id := st1.nextItemId, session_id := sid, product_id := pid
    product_name := p.name, price := p.price.getD 0, quantity := qty
    vendor_id := p.vendor_id, vendor_name := p.vendor_name
    image_url := p.image_url }

/-- `POST /api/v1/cart/items` (`add_to_cart`): fetch the product
(404 if absent or falsy), check stock (400), then branch on an
existing `(session_id, product_id)` row.  The INSERT branch names
only existing columns and succeeds; the UPDATE branch sets the
non-existent `cart_items.updated_at` column, so SQLite raises
`OperationalError` at prepare (HTTP 500) and the row keeps its old
quantity. -/
def add_to_cart (st : Store) (up : Upstream) (sid pid : String)
    (qty : Int) : Store × Except CartError String :=
  let st1 := (fetch_product st up pid).2
  match (fetch_product st up pid).1 with
  | none => (st1, Except.error CartError.productNotFound)
  | some p =>
    if productFalsy p then (st1, Except.error CartError.productNotFound)
    else if p.stock.getD 0 < qty then
      (st1, Except.error CartError.insufficientStock)
    else
      match st1.items.find? (pairPred sid pid) with
      | some _ =>
          (st1, Except.error CartError.operationalError)
      | none =>
          ({ st1 with
             items := st1.items ++ [newItem st1 sid pid p qty]
             nextItemId := st1.nextItemId + 1 },
           Except.ok ("Item added to cart"))

/-- `GET /api/v1/cart` (`get_cart`): the session rows ordered by id
descending, plus `calculate_totals` with no discount code (the
endpoint takes none); `discount_code` is never populated. -/
def get_cart (st : Store) (sid : String) : CartResponse :=
  let t := calculate_totals st sid none
  { session_id := sid
    items := (sessionItems st sid).reverse
    subtotal := t.subtotal
    discount := t.discount
    shipping := t.shipping
    total := t.total
    discount_code := none }

/-- `PUT /api/v1/cart/items/{item_id}` (`update_item_quantity`):
quantity `< 1` rejected first; then the item must exist for the
session; then the re-fetched snapshot, when present and truthy, must
cover the quantity; the final UPDATE then sets the non-existent
`cart_items.updated_at` column, so SQLite raises `OperationalError`
at prepare (HTTP 500) and the quantity is never changed. -/
def update_item_quantity (st : Store) (up : Upstream) (sid : String)
    (item_id : Nat) (qty : Int) : Store × Except CartError String :=
  if qty < 1 then (st, Except.error CartError.invalidQuantity)
  else
    match st.items.find?
        (fun it => it.id = item_id && it.session_id = sid) with
    | none => (st, Except.error CartError.itemNotFound)
    | some it0 =>
      let st1 := (fetch_product st up it0.product_id).2
      let p? := (fetch_product st up it0.product_id).1
      let failsStock :=
        match p? with
        | some p => !productFalsy p && p.stock.getD 0 < qty
        | none => false
      if failsStock then (st1, Except.error CartError.insufficientStock)
      else (st1, Except.error CartError.operationalError)

/-- `DELETE /api/v1/cart/items/{item_id}` (`remove_item`): the item
must exist for the session, then every row with that id is deleted. -/
def remove_item (st : Store) (sid : String) (item_id : Nat) :
    Store × Except CartError String :=
  match st.items.find?
      (fun it => it.id = item_id && it.session_id = sid) with
  | none => (st, Except.error CartError.itemNotFound)
  | some _ =>
      ({ st with items := st.items.filter (fun it => !(it.id = item_id)) },
       Except.ok ("Item removed"))

/-- `DELETE /api/v1/cart` (`clear_cart`): deletes every row of the
session and answers with a bare confirmation message. -/
def clear_cart (st : Store) (sid : String) : Store × ClearResult :=
  ({ st with items := st.items.filter (fun it => !(it.session_id = sid)) },
   { message := ("Cart cleared") })

/-- `POST /api/v1/cart/discount` (`apply_discount_code`): 404 when the
exact-match lookup misses, otherwise the totals are computed on the
fly with the code and only the discount amount is reported; nothing is
written to the store. -/
def apply_discount_code (st : Store) (sid : String) (c : String) :
    Store × Except CartError ApplyResult :=
  match lookupActiveCode st c with
  | none => (st, Except.error CartError.discountNotFound)
  | some _ =>
      (st, Except.ok
        { message := ("Discount code applied"), code := c
          discount_amount := (calculate_totals st sid (some c)).discount })

/-- `POST /api/v1/config/product-service`
(`configure_product_service`): `INSERT OR REPLACE` with an
auto-assigned id never conflicts, so a fresh active row is appended
(older rows stay untouched and active); then the product cache is
cleared. -/
def configure_product_service (st : Store) (endpoint : String)
    (api_key : Option String) (headers : String) : Store :=
  { st with
    configs := st.configs ++
      [{ endpoint := endpoint, api_key := api_key
         headers := headers, is_active := true }]
    cache := [] }

/-- Number of rows of a `(session_id, product_id)` pair. -/
def pairCount (st : Store) (sid pid : String) : Nat :=
  (st.items.filter (pairPred sid pid)).length

/-- Total quantity held by a `(session_id, product_id)` pair. -/
def pairQty (st : Store) (sid pid : String) : Int :=
  ((st.items.filter (pairPred sid pid)).map (fun it => it.quantity)).sum

/-- The line-item uniqueness invariant: at most one row per
`(session_id, product_id)` pair. -/
def uniquePairs (st : Store) : Prop :=
  ∀ sid pid : String, pairCount st sid pid ≤ 1

/-- Two rows sharing `vendor_id` `v1` under different vendor names:
the grouping key of the source query separates them. -/
def itemV1A : LineItem :=
  { id := 1, session_id := ("s"), product_id := ("p1"), product_name := none
    price := 500, quantity := 1, vendor_id := some ("v1")
    vendor_name := some ("Alpha"), image_url := none }

/-- Companion row to `itemV1A`: same `vendor_id`, different name. -/
def itemV1B : LineItem :=
  { id := 2, session_id := ("s"), product_id := ("p2"), product_name := none
    price := 500, quantity := 1, vendor_id := some ("v1")
    vendor_name := some ("Beta"), image_url := none }

/-- Store holding the two same-vendor-id, different-name rows. -/
def stSplitName : Store :=
  { items := [itemV1A, itemV1B], nextItemId := 3, discount_codes := []
    configs := [], cache := [] }

/-- A vendor-`v1` row with subtotal `850` (at or above threshold). -/
def itemBig : LineItem :=
  { id := 1, session_id := ("s"), product_id := ("p1"), product_name := none
    price := 850, quantity := 1, vendor_id := some ("v1")
    vendor_name := some ("VendorOne"), image_url := none }

/-- A vendor-`v2` row with subtotal `750` (below threshold). -/
def itemSmall : LineItem :=
  { id := 2, session_id := ("s"), product_id := ("p2"), product_name := none
    price := 750, quantity := 1, vendor_id := some ("v2")
    vendor_name := some ("VendorTwo"), image_url := none }

/-- Store with two vendors, subtotals `850` and `750`. -/
def stTwoVendors : Store :=
  { items := [itemBig, itemSmall], nextItemId := 3, discount_codes := []
    configs := [], cache := [] }

/-- Single-vendor row with subtotal exactly `800`. -/
def stExactly800 : Store :=
  { items := [{ id := 1, session_id := ("s"), product_id := ("p1")
                product_name := none, price := 800, quantity := 1
                vendor_id := some ("v1"), vendor_name := some ("VendorOne")
                image_url := none }]
    nextItemId := 2, discount_codes := [], configs := [], cache := [] }

/-- Single-vendor row with subtotal `799.99`. -/
def stJustBelow800 : Store :=
  { items := [{ id := 1, session_id := ("s"), product_id := ("p1")
                product_name := none, price := 79999/100, quantity := 1
                vendor_id := some ("v1"), vendor_name := some ("VendorOne")
                image_url := none }]
    nextItemId := 2, discount_codes := [], configs := [], cache := [] }

/-- A row of price `0.014`, quantity `1`. -/
def itemTiny : LineItem :=
  { id := 1, session_id := ("s"), product_id := ("p1"), product_name := none
    price := 7/500, quantity := 1, vendor_id := some ("v1")
    vendor_name := some ("VendorOne"), image_url := none }

/-- Store with the `0.014` row and an active 50 percent code. -/
def stTinyDiscount : Store :=
  { items := [itemTiny], nextItemId := 2
    discount_codes := [{ code := ("HALF"), percentage := 50, is_active := true }]
    configs := [], cache := [] }

/-- Second `0.014` row for the per-item-rounding separation. -/
def itemTiny2 : LineItem :=
  { id := 2, session_id := ("s"), product_id := ("p2"), product_name := none
    price := 7/500, quantity := 1, vendor_id := some ("v1")
    vendor_name := some ("VendorOne"), image_url := none }

/-- Store with two `0.014` rows: their sum rounds to `0.03`, while the
per-row roundings sum to `0.02`. -/
def stPennyPair : Store :=
  { items := [itemTiny, itemTiny2], nextItemId := 3, discount_codes := []
    configs := [], cache := [] }

/-- The seeded `SAVE10` row. -/
def rowSAVE10 : DiscountCode :=
  { code := ("SAVE10"), percentage := 10, is_active := true }

/-- Store with subtotal `999.90` and the seeded `SAVE10` code. -/
def stSave10 : Store :=
  { items := [{ id := 1, session_id := ("s"), product_id := ("p1")
                product_name := none, price := 9999/100, quantity := 10
                vendor_id := some ("v1"), vendor_name := some ("VendorOne")
                image_url := none }]
    nextItemId := 2, discount_codes := [rowSAVE10], configs := [], cache := [] }

/-- Store with rows `(0.1, 3)` and `(0.2, 2)`. -/
def stDimes : Store :=
  { items := [{ id := 1, session_id := ("s"), product_id := ("p1")
                product_name := none, price := 1/10, quantity := 3
                vendor_id := some ("v1"), vendor_name := some ("VendorOne")
                image_url := none }
             ,{ id := 2, session_id := ("s"), product_id := ("p2")
                product_name := none, price := 2/10, quantity := 2
                vendor_id := some ("v1"), vendor_name := some ("VendorOne")
                image_url := none }]
    nextItemId := 3, discount_codes := [], configs := [], cache := [] }

/-- Product `P`: in stock, priced `10`. -/
def prodP : Product :=
  { name := some ("ProdP"), price := some 10, stock := some 100
    vendor_id := some ("v1"), vendor_name := some ("VendorOne")
    image_url := none }

/-- Upstream serving exactly product `P`. -/
def upP : Upstream := fun _ pid2 =>
  if pid2 = ("P") then FetchOutcome.ok prodP else FetchOutcome.transportError

/-- The store after adding product `P` with quantity `2` and then
quantity `3` to session `s` of the freshly initialised store. -/
def stTwoAdds : Store :=
  (add_to_cart (add_to_cart initStore upP ("s") ("P") 2).1
    upP ("s") ("P") 3).1

/-- An upstream that always fails at transport level. -/
def upNone : Upstream := fun _ _ => FetchOutcome.transportError

/-- The apply-discount response on an empty cart with `SAVE10`. -/
def appliedSave10 : ApplyResult :=
  { message := ("Discount code applied"), code := ("SAVE10")
    discount_amount := 0 }

/-- A store with no product-service configuration at all. -/
def stNoCfg : Store :=
  { items := [], nextItemId := 1, discount_codes := [], configs := []
    cache := [] }

/-- Session-`s` row one for the clear-cart scenario. -/
def itemS1 : LineItem :=
  { id := 1, session_id := ("s"), product_id := ("p1"), product_name := none
    price := 10, quantity := 1, vendor_id := some ("v1")
    vendor_name := some ("VendorOne"), image_url := none }

/-- Session-`s` row two for the clear-cart scenario. -/
def itemS2 : LineItem :=
  { id := 2, session_id := ("s"), product_id := ("p2"), product_name := none
    price := 20, quantity := 2, vendor_id := some ("v1")
    vendor_name := some ("VendorOne"), image_url := none }

/-- A row of the unrelated session `t`. -/
def itemT : LineItem :=
  { id := 3, session_id := ("t"), product_id := ("p3"), product_name := none
    price := 5, quantity := 1, vendor_id := some ("v1")
    vendor_name := some ("VendorOne"), image_url := none }

/-- Store with two rows in session `s` and one in session `t`. -/
def stClearTwo : Store :=
  { items := [itemS1, itemS2, itemT], nextItemId := 4, discount_codes := []
    configs := [], cache := [] }

/-- The endpoint supplied by the reconfiguration call. -/
def newCfgEndpoint : String := "https://new.example.com/products"

/-- The seeded store after `configure_product_service` with the new
endpoint. -/
def stReconfigured : Store :=
  configure_product_service initStore newCfgEndpoint none ("{}")

/-- Product snapshot served by the old endpoint. -/
def prodOld : Product :=
  { name := some ("FromOld"), price := some 10, stock := some 5
    vendor_id := some ("v1"), vendor_name := some ("VendorOne")
    image_url := none }

/-- Product snapshot served by the new endpoint. -/
def prodNew : Product :=
  { name := some ("FromNew"), price := some 20, stock := some 5
    vendor_id := some ("v1"), vendor_name := some ("VendorOne")
    image_url := none }

/-- Upstream that answers `prodNew` on the new endpoint and `prodOld`
elsewhere (in particular on the seeded endpoint). -/
def upSplit : Upstream := fun e _ =>
  if e = newCfgEndpoint then FetchOutcome.ok prodNew
  else FetchOutcome.ok prodOld

/-- Evaluation rule for `roundHalfEven` when the fractional part is
below one half. -/
lemma roundHalfEven_eq_of_lt_half (x : ℚ) (n : ℤ) (h1 : (n:ℚ) ≤ x)
    (h2 : x - (n:ℚ) < 1/2) : roundHalfEven x = n := by
  have hfl : ⌊x⌋ = n := Int.floor_eq_iff.mpr ⟨h1, by linarith⟩
  simp only [roundHalfEven, hfl]
  rw [if_pos h2]

/-- Evaluation rule for `roundHalfEven` when the fractional part is
above one half. -/
lemma roundHalfEven_eq_of_half_lt (x : ℚ) (n : ℤ) (h1 : x < (n:ℚ) + 1)
    (h2 : 1/2 < x - (n:ℚ)) : roundHalfEven x = n + 1 := by
  have hfl : ⌊x⌋ = n := Int.floor_eq_iff.mpr ⟨by linarith, h1⟩
  have hnl : ¬ (x - (n:ℚ) < 1/2) := by linarith
  simp only [roundHalfEven, hfl]
  rw [if_neg hnl, if_pos h2]

/-- Evaluation rule for `roundTo2`, round-down case. -/
lemma roundTo2_eq_of_lt_half (x : ℚ) (n : ℤ) (h1 : (n:ℚ) ≤ x * 100)
    (h2 : x * 100 - (n:ℚ) < 1/2) : roundTo2 x = (n:ℚ)/100 := by
  rw [roundTo2, roundHalfEven_eq_of_lt_half _ n h1 h2]

/-- Evaluation rule for `roundTo2`, round-up case. -/
lemma roundTo2_eq_of_half_lt (x : ℚ) (n : ℤ) (h1 : x * 100 < (n:ℚ) + 1)
    (h2 : 1/2 < x * 100 - (n:ℚ)) : roundTo2 x = ((n:ℚ)+1)/100 := by
  rw [roundTo2, roundHalfEven_eq_of_half_lt _ n h1 h2]
  push_cast
  ring

/-- A sum over the deduplicated keys of a list equals the finset sum
over its distinct members. -/
lemma sum_dedup_map {K : Type} [DecidableEq K] (m : List K) (f : K → ℚ) :
    (m.dedup.map f).sum = ∑ k ∈ m.toFinset, f k := by
  induction m with
  | nil => simp
  | cons a m ih =>
    by_cases h : a ∈ m
    · rw [List.dedup_cons_of_mem h, List.toFinset_cons,
        Finset.insert_eq_self.mpr (List.mem_toFinset.mpr h), ih]
    · rw [List.dedup_cons_of_not_mem h, List.toFinset_cons, List.map_cons,
        List.sum_cons, Finset.sum_insert (by simpa using h), ih]

/-- Two grouping keys that induce the same partition of a row list
yield the same total shipping. -/
lemma shippingBy_congr {K1 K2 : Type} [DecidableEq K1] [DecidableEq K2]
    (f : LineItem → K1) (g : LineItem → K2) (items : List LineItem)
    (hfg : ∀ a ∈ items, ∀ b ∈ items, (f a = f b ↔ g a = g b)) :
    shippingBy f items = shippingBy g items := by
  have key : ∀ {k : K1}, k ∈ (items.map f).toFinset →
      ∃ a, a ∈ items ∧ f a = k := by
    intro k hk
    simpa [List.mem_map] using List.mem_toFinset.mp hk
  unfold shippingBy groupKeys
  rw [sum_dedup_map, sum_dedup_map]
  refine Finset.sum_bij (fun k hk => g (key hk).choose) ?_ ?_ ?_ ?_
  · intro k hk
    have hsp := (key hk).choose_spec
    exact List.mem_toFinset.mpr (List.mem_map.mpr ⟨_, hsp.1, rfl⟩)
  · intro k1 hk1 k2 hk2 heq
    have h1 := (key hk1).choose_spec
    have h2 := (key hk2).choose_spec
    have : f (key hk1).choose = f (key hk2).choose :=
      (hfg _ h1.1 _ h2.1).mpr heq
    rw [h1.2, h2.2] at this
    exact this
  · intro v hv
    obtain ⟨a, ha, hga⟩ := by simpa [List.mem_map] using List.mem_toFinset.mp hv
    have hk : f a ∈ (items.map f).toFinset :=
      List.mem_toFinset.mpr (List.mem_map.mpr ⟨a, ha, rfl⟩)
    refine ⟨f a, hk, ?_⟩
    have hsp := (key hk).choose_spec
    show g (key hk).choose = v
    exact Eq.trans ((hfg _ hsp.1 _ ha).mp hsp.2) hga
  · intro k hk
    have hsp := (key hk).choose_spec
    have hfilter : items.filter (fun it => f it = k) =
        items.filter (fun it => g it = g (key hk).choose) := by
      apply List.filter_congr
      intro b hb
      have hiff : f b = k ↔ g b = g (key hk).choose := by
        constructor
        · intro hb2
          exact (hfg _ hb _ hsp.1).mp (hb2.trans hsp.2.symm)
        · intro hg2
          exact ((hfg _ hb _ hsp.1).mpr hg2).trans hsp.2
      simp only [decide_eq_decide]
      exact hiff
    unfold groupSubtotal
    rw [hfilter]




/-- C1, counterexample: the pricing engine groups by
`(vendor_id, vendor_name)`, not by `vendor_id` alone.  Two rows with
vendor id `v1` but names `Alpha` and `Beta`, each of subtotal `500`,
are charged `100` each (shipping `200`), while the formula of the
claim merges them into one group of subtotal `1000 ≥ 800` (shipping
`0`). -/
theorem counterexample_C1_vendor_name_splits_group :
    (calculate_totals stSplitName ("s") none).shipping = 200 ∧
    roundTo2 (shippingByVendorId (sessionItems stSplitName ("s"))) = 0 ∧
    (calculate_totals stSplitName ("s") none).shipping ≠
      roundTo2 (shippingByVendorId (sessionItems stSplitName ("s"))) := by
  have h1 : rawShipping (sessionItems stSplitName ("s")) = 200 := by
    simp [sessionItems, stSplitName, itemV1A, itemV1B, rawShipping, shippingBy,
          groupKeys, groupSubtotal, rawSubtotal, itemAmount, pairKey, shipFor]
    norm_num
  have h2 : shippingByVendorId (sessionItems stSplitName ("s")) = 0 := by
    simp [sessionItems, stSplitName, itemV1A, itemV1B, shippingByVendorId,
          shippingBy, groupKeys, groupSubtotal, rawSubtotal, itemAmount, shipFor]
    norm_num
  have h3 : (calculate_totals stSplitName ("s") none).shipping = 200 := by
    simp only [calculate_totals]
    rw [h1, roundTo2_eq_of_lt_half _ 20000 (by norm_num) (by norm_num)]
    norm_num
  have h4 : roundTo2 (shippingByVendorId (sessionItems stSplitName ("s"))) = 0 := by
    rw [h2, roundTo2_eq_of_lt_half _ 0 (by norm_num) (by norm_num)]
    norm_num
  refine ⟨h3, h4, ?_⟩
  rw [h3, h4]
  norm_num

/-- C1 (amended): within any session whose rows give each `vendor_id`
a single `vendor_name` (the source groups by the pair
`(vendor_id, vendor_name)`), the reported shipping equals the sum over
`vendor_id` groups of `100` when that vendor subtotal is strictly
below `800`, else `0`; and on a session with one vendor at exactly
`800` the charge is `0`, at `799.99` it is `100`. -/
theorem claim_C1_shipping_per_vendor_threshold :
    (∀ (st : Store) (sid : String) (code? : Option String),
      (∀ a ∈ sessionItems st sid, ∀ b ∈ sessionItems st sid,
        a.vendor_id = b.vendor_id → a.vendor_name = b.vendor_name) →
      (calculate_totals st sid code?).shipping =
        roundTo2 (shippingByVendorId (sessionItems st sid))) ∧
    (calculate_totals stExactly800 ("s") none).shipping = 0 ∧
    (calculate_totals stJustBelow800 ("s") none).shipping = 100 := by
  refine ⟨?_, ?_, ?_⟩
  · intro st sid code? h
    have hcongr : rawShipping (sessionItems st sid) =
        shippingByVendorId (sessionItems st sid) := by
      unfold rawShipping shippingByVendorId
      apply shippingBy_congr
      intro a ha b hb
      constructor
      · intro hp
        exact congrArg Prod.fst hp
      · intro hv
        unfold pairKey
        rw [hv, h a ha b hb hv]
    simp only [calculate_totals]
    rw [hcongr]
  · have h1 : rawShipping (sessionItems stExactly800 ("s")) = 0 := by
      simp [sessionItems, stExactly800, rawShipping, shippingBy, groupKeys,
            groupSubtotal, rawSubtotal, itemAmount, pairKey, shipFor]
    simp only [calculate_totals]
    rw [h1, roundTo2_eq_of_lt_half _ 0 (by norm_num) (by norm_num)]
    norm_num
  · have h1 : rawShipping (sessionItems stJustBelow800 ("s")) = 100 := by
      simp [sessionItems, stJustBelow800, rawShipping, shippingBy, groupKeys,
            groupSubtotal, rawSubtotal, itemAmount, pairKey, shipFor]
      norm_num
    simp only [calculate_totals]
    rw [h1, roundTo2_eq_of_lt_half _ 10000 (by norm_num) (by norm_num)]
    norm_num

/-- C1, witness: two vendors with subtotals `850` and `750` and
consistent vendor names; only the second contributes, shipping `100`. -/
theorem witness_C1_two_vendor_store :
    (∀ a ∈ sessionItems stTwoVendors ("s"), ∀ b ∈ sessionItems stTwoVendors ("s"),
      a.vendor_id = b.vendor_id → a.vendor_name = b.vendor_name) ∧
    (calculate_totals stTwoVendors ("s") none).shipping =
      roundTo2 (shippingByVendorId (sessionItems stTwoVendors ("s"))) ∧
    (calculate_totals stTwoVendors ("s") none).shipping = 100 := by
  have h : ∀ a ∈ sessionItems stTwoVendors ("s"),
      ∀ b ∈ sessionItems stTwoVendors ("s"),
      a.vendor_id = b.vendor_id → a.vendor_name = b.vendor_name := by
    decide
  refine ⟨h, claim_C1_shipping_per_vendor_threshold.1 stTwoVendors ("s") none h, ?_⟩
  have h1 : rawShipping (sessionItems stTwoVendors ("s")) = 100 := by
    simp [sessionItems, stTwoVendors, itemBig, itemSmall, rawShipping,
          shippingBy, groupKeys, groupSubtotal, rawSubtotal, itemAmount,
          pairKey, shipFor]
    norm_num
  simp only [calculate_totals]
  rw [h1, roundTo2_eq_of_lt_half _ 10000 (by norm_num) (by norm_num)]
  norm_num

/-- `itemAmount` written as the lambda it is. -/
lemma itemAmount_def : itemAmount = fun it => it.price * (it.quantity : ℚ) := rfl

/-- C2, counterexample: the reported total is the rounding of the
unrounded components, not of the rounded fields.  With one row of
price `0.014` and a 50 percent code, the fields are subtotal `0.01`,
discount `0.01`, shipping `100`, but the total is `100.01`, while
`round(subtotal - discount + shipping, 2) = 100.00`. -/
theorem counterexample_C2_total_uses_unrounded_components :
    (calculate_totals stTinyDiscount ("s") (some ("HALF"))).subtotal = 1/100 ∧
    (calculate_totals stTinyDiscount ("s") (some ("HALF"))).discount = 1/100 ∧
    (calculate_totals stTinyDiscount ("s") (some ("HALF"))).shipping = 100 ∧
    (calculate_totals stTinyDiscount ("s") (some ("HALF"))).total = 10001/100 ∧
    (calculate_totals stTinyDiscount ("s") (some ("HALF"))).total ≠
      roundTo2 ((calculate_totals stTinyDiscount ("s") (some ("HALF"))).subtotal
        - (calculate_totals stTinyDiscount ("s") (some ("HALF"))).discount
        + (calculate_totals stTinyDiscount ("s") (some ("HALF"))).shipping) := by
  have hitems : sessionItems stTinyDiscount ("s") = [itemTiny] := by
    simp [sessionItems, stTinyDiscount, itemTiny]
  have hsub : rawSubtotal (sessionItems stTinyDiscount ("s")) = 7/500 := by
    rw [hitems]
    simp [rawSubtotal, itemAmount, itemTiny]
  have hship : rawShipping (sessionItems stTinyDiscount ("s")) = 100 := by
    rw [hitems]
    simp [rawShipping, shippingBy, groupKeys, groupSubtotal, rawSubtotal,
          itemAmount, pairKey, shipFor, itemTiny]
    norm_num
  have hdisc : rawDiscount stTinyDiscount (sessionItems stTinyDiscount ("s"))
      (some ("HALF")) = 7/1000 := by
    rw [hitems]
    simp [rawDiscount, lookupActiveCode, stTinyDiscount, rawSubtotal,
          itemAmount, itemTiny]
    norm_num
  have h1 : (calculate_totals stTinyDiscount ("s") (some ("HALF"))).subtotal
      = 1/100 := by
    simp only [calculate_totals, hsub]
    rw [roundTo2_eq_of_lt_half _ 1 (by norm_num) (by norm_num)]
    norm_num
  have h2 : (calculate_totals stTinyDiscount ("s") (some ("HALF"))).discount
      = 1/100 := by
    simp only [calculate_totals, hdisc]
    rw [roundTo2_eq_of_half_lt _ 0 (by norm_num) (by norm_num)]
    norm_num
  have h3 : (calculate_totals stTinyDiscount ("s") (some ("HALF"))).shipping
      = 100 := by
    simp only [calculate_totals, hship]
    rw [roundTo2_eq_of_lt_half _ 10000 (by norm_num) (by norm_num)]
    norm_num
  have h4 : (calculate_totals stTinyDiscount ("s") (some ("HALF"))).total
      = 10001/100 := by
    simp only [calculate_totals, hsub, hship, hdisc]
    rw [roundTo2_eq_of_half_lt _ 10000 (by norm_num) (by norm_num)]
    norm_num
  refine ⟨h1, h2, h3, h4, ?_⟩
  rw [h1, h2, h3, h4]
  rw [show (1:ℚ)/100 - 1/100 + 100 = 100 by norm_num]
  rw [roundTo2_eq_of_lt_half _ 10000 (by norm_num) (by norm_num)]
  norm_num

/-- C2 (amended): the reported subtotal is the 2-decimal rounding of
the once-summed raw amounts; the discount rounds
`raw_subtotal x percentage/100`; the total rounds
`raw_subtotal - raw_discount + shipping` (the unrounded components,
not the rounded fields); and end-rounding differs from per-row
rounding on the `0.014 + 0.014` store. -/
theorem claim_C2_rounding_pipeline :
    (∀ (st : Store) (sid : String),
      (calculate_totals st sid none).subtotal =
        roundTo2 (((sessionItems st sid).map
          (fun it => it.price * (it.quantity : ℚ))).sum)) ∧
    (∀ (st : Store) (sid : String) (c : String) (d : DiscountCode),
      c ≠ ("") → lookupActiveCode st c = some d →
      (calculate_totals st sid (some c)).subtotal =
        roundTo2 (((sessionItems st sid).map
          (fun it => it.price * (it.quantity : ℚ))).sum) ∧
      (calculate_totals st sid (some c)).discount =
        roundTo2 ((((sessionItems st sid).map
          (fun it => it.price * (it.quantity : ℚ))).sum) * (d.percentage / 100)) ∧
      (calculate_totals st sid (some c)).total =
        roundTo2 ((((sessionItems st sid).map
          (fun it => it.price * (it.quantity : ℚ))).sum)
          - (((sessionItems st sid).map
              (fun it => it.price * (it.quantity : ℚ))).sum) * (d.percentage / 100)
          + rawShipping (sessionItems st sid))) ∧
    ((calculate_totals stPennyPair ("s") none).subtotal = 3/100 ∧
      ((sessionItems stPennyPair ("s")).map
        (fun it => roundTo2 (it.price * (it.quantity : ℚ)))).sum = 2/100) := by
  refine ⟨?_, ?_, ?_, ?_⟩
  · intro st sid
    simp [calculate_totals, rawSubtotal, itemAmount_def]
  · intro st sid c d hc hlook
    refine ⟨?_, ?_, ?_⟩
    · simp [calculate_totals, rawSubtotal, itemAmount_def]
    · simp [calculate_totals, rawDiscount, hc, hlook, rawSubtotal, itemAmount_def]
    · simp [calculate_totals, rawDiscount, hc, hlook, rawSubtotal, itemAmount_def]
  · have hitems : sessionItems stPennyPair ("s") = [itemTiny, itemTiny2] := by
      simp [sessionItems, stPennyPair, itemTiny, itemTiny2]
    have hsub : rawSubtotal (sessionItems stPennyPair ("s")) = 7/250 := by
      rw [hitems]
      simp [rawSubtotal, itemAmount, itemTiny, itemTiny2]
      norm_num
    simp only [calculate_totals, rawSubtotal, itemAmount] at *
    rw [hsub, roundTo2_eq_of_half_lt _ 2 (by norm_num) (by norm_num)]
    norm_num
  · have hitems : sessionItems stPennyPair ("s") = [itemTiny, itemTiny2] := by
      simp [sessionItems, stPennyPair, itemTiny, itemTiny2]
    rw [hitems]
    simp only [List.map_cons, List.map_nil, List.sum_cons, List.sum_nil, itemTiny, itemTiny2]
    norm_num
    rw [roundTo2_eq_of_lt_half ((7:ℚ)/500) 1 (by norm_num) (by norm_num)]
    norm_num

/-- C2, witness: the seeded `SAVE10` row on subtotal `999.90` gives
discount `99.99`, and rows `(0.1, 3)`, `(0.2, 2)` give subtotal
`0.70`, by the amended claim evaluated at those stores. -/
theorem witness_C2_save10_and_dimes :
    ((("SAVE10") : String) ≠ ("")) ∧
    lookupActiveCode stSave10 ("SAVE10") = some rowSAVE10 ∧
    (calculate_totals stSave10 ("s") (some ("SAVE10"))).discount = 9999/100 ∧
    (calculate_totals stDimes ("s") none).subtotal = 7/10 := by
  have hc : ((("SAVE10")) : String) ≠ ("") := by decide
  have hlook : lookupActiveCode stSave10 ("SAVE10") = some rowSAVE10 := by
    simp [lookupActiveCode, stSave10, rowSAVE10]
  refine ⟨hc, hlook, ?_, ?_⟩
  · have h := (claim_C2_rounding_pipeline.2.1 stSave10 ("s") ("SAVE10")
      rowSAVE10 hc hlook).2.1
    rw [h]
    have hsum : ((sessionItems stSave10 ("s")).map
        (fun it => it.price * (it.quantity : ℚ))).sum = 9999/10 := by
      simp [sessionItems, stSave10]
      norm_num
    rw [hsum, show rowSAVE10.percentage = 10 from rfl,
        show (9999:ℚ)/10 * (10/100) = 9999/100 by norm_num,
        roundTo2_eq_of_lt_half _ 9999 (by norm_num) (by norm_num)]
    norm_num
  · have h := claim_C2_rounding_pipeline.1 stDimes ("s")
    rw [h]
    have hsum : ((sessionItems stDimes ("s")).map
        (fun it => it.price * (it.quantity : ℚ))).sum = 7/10 := by
      simp [sessionItems, stDimes]
      norm_num
    rw [hsum, roundTo2_eq_of_lt_half _ 70 (by norm_num) (by norm_num)]
    norm_num

/-- `fetch_product` only touches the cache: the `cart_items` table is
unchanged. -/
lemma fetch_product_items (st : Store) (up : Upstream) (pid : String) :
    ((fetch_product st up pid).2).items = st.items := by
  unfold fetch_product
  split
  · rfl
  · split
    · rfl
    · split
      · rfl
      · split
        · rfl
        · rfl

/-- C3, code-bug evidence: the first add of product `P` (quantity 2)
succeeds and inserts one row; the second add of the same product hits
the UPDATE branch, whose statement sets the non-existent
`cart_items.updated_at` column, so it fails with `OperationalError`
(HTTP 500) and the row keeps quantity `2` — the claimed single row of
quantity `5` is unreachable.  The pair still holds exactly one row. -/
theorem claim_C3_readd_operational_error :
    (add_to_cart initStore upP ("s") ("P") 2).2 =
      Except.ok ("Item added to cart") ∧
    (add_to_cart (add_to_cart initStore upP ("s") ("P") 2).1
        upP ("s") ("P") 3).2 =
      Except.error CartError.operationalError ∧
    stTwoAdds.items.filter (pairPred ("s") ("P")) =
      [{ id := 1, session_id := ("s"), product_id := ("P")
         product_name := some ("ProdP"), price := 10, quantity := 2
         vendor_id := some ("v1"), vendor_name := some ("VendorOne")
         image_url := none }] ∧
    pairCount stTwoAdds ("s") ("P") = 1 ∧
    pairQty stTwoAdds ("s") ("P") = 2 :=
  ⟨rfl, rfl, by decide, by decide, by decide⟩

/-- C4, counterexample: on a store without item `99999`,
`UpdateQuantity(99999, 0)` and `UpdateQuantity(99999, -1)` fail with
InvalidQuantity, not ItemNotFound: the quantity check precedes the
existence check, so ItemNotFound is not raised regardless of the
quantity value. -/
theorem counterexample_C4_invalid_qty_beats_not_found :
    initStore.items.find?
      (fun it => it.id = 99999 && it.session_id = ("s")) = none ∧
    (update_item_quantity initStore upNone ("s") 99999 0).2 =
      Except.error CartError.invalidQuantity ∧
    (update_item_quantity initStore upNone ("s") 99999 (-1)).2 =
      Except.error CartError.invalidQuantity ∧
    CartError.invalidQuantity ≠ CartError.itemNotFound :=
  ⟨by decide, rfl, rfl, by decide⟩

/-- C4 (amended): `UpdateQuantity` fails with InvalidQuantity whenever
`qty < 1` (that check runs first), and with ItemNotFound when
`qty ≥ 1` and no row with the given id belongs to the session. -/
theorem claim_C4_update_quantity_checks :
    ∀ (st : Store) (up : Upstream) (sid : String) (item_id : Nat)
      (qty : Int),
      (qty < 1 →
        update_item_quantity st up sid item_id qty =
          (st, Except.error CartError.invalidQuantity)) ∧
      (1 ≤ qty →
        st.items.find? (fun it => it.id = item_id && it.session_id = sid)
          = none →
        update_item_quantity st up sid item_id qty =
          (st, Except.error CartError.itemNotFound)) := by
  intro st up sid item_id qty
  constructor
  · intro h
    simp [update_item_quantity, h]
  · intro h hfind
    have h2 : ¬ qty < 1 := by omega
    simp [update_item_quantity, h2, hfind]

/-- C4, witness: the amended claim at quantity `0` (InvalidQuantity)
and at quantity `2` on a missing item (ItemNotFound). -/
theorem witness_C4_concrete_updates :
    ((0:Int) < 1) ∧
    update_item_quantity initStore upNone ("s") 99999 0 =
      (initStore, Except.error CartError.invalidQuantity) ∧
    ((1:Int) ≤ 2) ∧
    initStore.items.find?
      (fun it => it.id = 99999 && it.session_id = ("s")) = none ∧
    update_item_quantity initStore upNone ("s") 99999 2 =
      (initStore, Except.error CartError.itemNotFound) :=
  ⟨by decide,
   (claim_C4_update_quantity_checks initStore upNone ("s") 99999 0).1
     (by decide),
   by decide, by decide,
   (claim_C4_update_quantity_checks initStore upNone ("s") 99999 2).2
     (by decide) (by decide)⟩

/-- C5, counterexample: the stored active code `SAVE10` is not found
by the lowercase query `save10`: the lookup is case-sensitive, so
`ApplyDiscount` 404s and the pricing engine yields discount `0` for
the lowercase spelling. -/
theorem counterexample_C5_lowercase_lookup_misses :
    lookupActiveCode initStore ("SAVE10") = some rowSAVE10 ∧
    lookupActiveCode initStore ("save10")  = none ∧
    (apply_discount_code initStore ("s") ("save10")).2 =
      Except.error CartError.discountNotFound ∧
    rawDiscount initStore [] (some ("save10")) = 0 :=
  ⟨by decide, by decide, rfl, rfl⟩

/-- C5 (amended): discount lookup is case-sensitive and exact: a
successful lookup returns a stored active row whose code is
character-for-character the queried string, and whenever no stored
row matches exactly, `ApplyDiscount` fails with DiscountNotFound and
the engine computes discount `0`. -/
theorem claim_C5_lookup_exact_match :
    (∀ (st : Store) (c : String) (d : DiscountCode),
      lookupActiveCode st c = some d →
      d.code = c ∧ d.is_active = true ∧ d ∈ st.discount_codes) ∧
    (∀ (st : Store) (sid c : String),
      lookupActiveCode st c = none →
      (apply_discount_code st sid c).2 =
        Except.error CartError.discountNotFound ∧
      ∀ items : List LineItem, rawDiscount st items (some c) = 0) := by
  constructor
  · intro st c d h
    have hmem := List.mem_of_find?_eq_some h
    have hp := List.find?_some h
    simp only [Bool.and_eq_true, decide_eq_true_eq] at hp
    exact ⟨hp.1, hp.2, hmem⟩
  · intro st sid c h
    constructor
    · simp [apply_discount_code, h]
    · intro items
      unfold rawDiscount
      by_cases hc : c = ("")
      · simp [hc]
      · simp [h, hc]

/-- C5, witness: the amended claim at the seeded store: exact-case
`SAVE10` resolves to the stored active row, lowercase `save20` misses
and fails. -/
theorem witness_C5_seeded_codes :
    lookupActiveCode initStore ("SAVE10") = some rowSAVE10 ∧
    rowSAVE10.code = ("SAVE10") ∧ rowSAVE10.is_active = true ∧
    rowSAVE10 ∈ initStore.discount_codes ∧
    lookupActiveCode initStore ("save20") = none ∧
    (apply_discount_code initStore ("s") ("save20")).2 =
      Except.error CartError.discountNotFound ∧
    rawDiscount initStore [] (some ("save20")) = 0 := by
  have h1 := claim_C5_lookup_exact_match.1 initStore ("SAVE10") rowSAVE10
    (by decide)
  have h2 := claim_C5_lookup_exact_match.2 initStore ("s") ("save20")
    (by decide)
  exact ⟨by decide, h1.1, h1.2.1, h1.2.2, by decide, h2.1, h2.2 []⟩

/-- `roundTo2` fixes `0`. -/
lemma roundTo2_zero : roundTo2 0 = 0 := by
  rw [roundTo2_eq_of_lt_half 0 0 (by norm_num) (by norm_num)]
  norm_num

/-- C7: a successful `ApplyDiscount` writes nothing: the store is
returned unchanged, and the subsequent `GetCart` (which carries no
code) computes its totals without any discount, reporting `0`. -/
theorem claim_C7_apply_discount_stateless :
    ∀ (st : Store) (sid c : String) (st2 : Store) (r : ApplyResult),
      apply_discount_code st sid c = (st2, Except.ok r) →
      st2 = st ∧
      (get_cart st2 sid).discount = 0 ∧
      get_cart st2 sid = get_cart st sid := by
  intro st sid c st2 r h
  have hst : st2 = st := by
    cases hl : lookupActiveCode st c with
    | none => simp [apply_discount_code, hl] at h
    | some d =>
      simp [apply_discount_code, hl] at h
      exact h.1.symm
  have hdisc : (get_cart st2 sid).discount = 0 := by
    simp [get_cart, calculate_totals, rawDiscount, roundTo2_zero]
  exact ⟨hst, hdisc, by rw [hst]⟩

/-- C7, witness: applying `SAVE10` on the seeded (empty-cart) store
succeeds, leaves the store unchanged, and the following `GetCart`
reports discount `0`. -/
theorem witness_C7_save10_then_get :
    apply_discount_code initStore ("s") ("SAVE10") =
      (initStore, Except.ok appliedSave10) ∧
    (get_cart initStore ("s")).discount = 0 := by
  have happ : apply_discount_code initStore ("s") ("SAVE10") =
      (initStore, Except.ok appliedSave10) := by
    have hl : lookupActiveCode initStore ("SAVE10") = some rowSAVE10 := by
      decide
    have hitems : sessionItems initStore ("s") = [] := rfl
    have hdisc0 : (calculate_totals initStore ("s")
        (some ("SAVE10"))).discount = 0 := by
      simp only [calculate_totals, hitems]
      have hz : rawDiscount initStore [] (some ("SAVE10")) = 0 := by
        simp [rawDiscount, hl, rawSubtotal]
      rw [hz, roundTo2_zero]
    simp [apply_discount_code, hl, appliedSave10, hdisc0]
  exact ⟨happ,
    (claim_C7_apply_discount_stateless initStore ("s") ("SAVE10") initStore
      appliedSave10 happ).2.1⟩

/-- C8: on a cache miss, a missing configuration, an empty endpoint,
or any failed upstream attempt make `fetch_product` return absent with
the store untouched, and `add_to_cart` consequently fails with
ProductNotFound — no distinct upstream or configuration error kind
reaches the caller. -/
theorem claim_C8_gateway_fails_closed :
    ∀ (st : Store) (up : Upstream) (sid pid : String) (qty : Int),
      cacheLookup st pid = none →
      (activeConfig st = none ∨
        ∃ cfg, activeConfig st = some cfg ∧
          (cfg.endpoint = ("") ∨
            ∀ p, up cfg.endpoint pid ≠ FetchOutcome.ok p)) →
      fetch_product st up pid = (none, st) ∧
      add_to_cart st up sid pid qty =
        (st, Except.error CartError.productNotFound) := by
  intro st up sid pid qty hmiss hfail
  have hfetch : fetch_product st up pid = (none, st) := by
    unfold fetch_product
    rcases hfail with hnone | ⟨cfg, hcfg, hrest⟩
    · simp [hmiss, hnone]
    · rcases hrest with hempty | hup
      · simp [hmiss, hcfg, hempty]
      · cases hout : up cfg.endpoint pid with
        | ok p => exact absurd hout (hup p)
        | transportError => simp [hmiss, hcfg, hout]
        | statusError => simp [hmiss, hcfg, hout]
        | malformedBody => simp [hmiss, hcfg, hout]
        | headerConfigError => simp [hmiss, hcfg, hout]
  constructor
  · exact hfetch
  · simp [add_to_cart, hfetch]

/-- C8, witness: no configuration stored, upstream irrelevant: the
fetch is absent and the add fails with ProductNotFound. -/
theorem witness_C8_no_config :
    cacheLookup stNoCfg ("pX") = none ∧
    activeConfig stNoCfg = none ∧
    fetch_product stNoCfg upNone ("pX") = (none, stNoCfg) ∧
    add_to_cart stNoCfg upNone ("s") ("pX") 1 =
      (stNoCfg, Except.error CartError.productNotFound) := by
  have h := claim_C8_gateway_fails_closed stNoCfg upNone ("s") ("pX") 1
    (by decide) (Or.inl (by decide))
  exact ⟨by decide, by decide, h.1, h.2⟩

/-- C9, counterexample: `clear_cart` answers with the fixed message
`Cart cleared` and nothing else; the responses for a session holding
two rows and for an empty session are identical, so the response
cannot carry the removed-row count the claim promises. -/
theorem counterexample_C9_clear_response_countless :
    (clear_cart stClearTwo ("s")).2 = { message := ("Cart cleared") } ∧
    (clear_cart initStore ("s")).2 = { message := ("Cart cleared") } ∧
    (sessionItems stClearTwo ("s")).length = 2 ∧
    (sessionItems initStore ("s")).length = 0 ∧
    (clear_cart stClearTwo ("s")).2 = (clear_cart initStore ("s")).2 :=
  ⟨rfl, rfl, by decide, by decide, rfl⟩

/-- C9 (amended): `clear_cart` deletes exactly the session's rows —
afterwards the session lists no items, rows of other sessions survive,
no row appears from nowhere — and returns only the fixed confirmation
message, not the count of removed rows. -/
theorem claim_C9_clear_removes_session_rows :
    ∀ (st : Store) (sid : String),
      sessionItems (clear_cart st sid).1 sid = [] ∧
      (∀ it ∈ st.items, it.session_id ≠ sid →
        it ∈ (clear_cart st sid).1.items) ∧
      (∀ it ∈ (clear_cart st sid).1.items, it ∈ st.items) ∧
      (clear_cart st sid).2 = { message := ("Cart cleared") } := by
  intro st sid
  refine ⟨?_, ?_, ?_, rfl⟩
  · unfold sessionItems clear_cart
    apply List.filter_eq_nil_iff.mpr
    intro it hit
    have hmem := List.mem_filter.mp hit
    have := hmem.2
    simp only [Bool.not_eq_eq_eq_not, Bool.not_true, decide_eq_false_iff_not] at this
    simpa using this
  · intro it hit hne
    unfold clear_cart
    simp only []
    apply List.mem_filter.mpr
    refine ⟨hit, ?_⟩
    simp [hne]
  · intro it hit
    unfold clear_cart at hit
    exact (List.mem_filter.mp hit).1

/-- C9, witness: the amended claim at the three-row store: session `s`
is emptied, the session-`t` row survives, and the response is the bare
message. -/
theorem witness_C9_three_row_store :
    sessionItems (clear_cart stClearTwo ("s")).1 ("s") = [] ∧
    itemT ∈ stClearTwo.items ∧
    itemT.session_id ≠ ("s") ∧
    itemT ∈ (clear_cart stClearTwo ("s")).1.items ∧
    (clear_cart stClearTwo ("s")).2 = { message := ("Cart cleared") } := by
  have h := claim_C9_clear_removes_session_rows stClearTwo ("s")
  exact ⟨h.1, by decide, by decide, h.2.1 itemT (by decide) (by decide),
    h.2.2.2⟩

/-- C10: every failing cart mutation leaves the `cart_items` table
exactly as it was: erroring `add_to_cart`, `update_item_quantity` and
`remove_item` calls change no line item of any session. -/
theorem claim_C10_failing_mutations_frame :
    ∀ (st : Store) (up : Upstream) (sid pid : String) (item_id : Nat)
      (qty : Int) (e e2 e3 : CartError),
      ((add_to_cart st up sid pid qty).2 = Except.error e →
        (add_to_cart st up sid pid qty).1.items = st.items) ∧
      ((update_item_quantity st up sid item_id qty).2 = Except.error e2 →
        (update_item_quantity st up sid item_id qty).1.items = st.items) ∧
      ((remove_item st sid item_id).2 = Except.error e3 →
        (remove_item st sid item_id).1.items = st.items) := by
  intro st up sid pid item_id qty e e2 e3
  refine ⟨?_, ?_, ?_⟩
  · intro h
    cases hp : (fetch_product st up pid).1 with
    | none =>
      simp [add_to_cart, hp, fetch_product_items]
    | some p =>
      by_cases hf : productFalsy p = true
      · simp [add_to_cart, hp, hf, fetch_product_items]
      · by_cases hs : p.stock.getD 0 < qty
        · simp [add_to_cart, hp, hf, hs, fetch_product_items]
        · cases hfind :
            ((fetch_product st up pid).2).items.find? (pairPred sid pid) with
          | some ex =>
            have h1 : (add_to_cart st up sid pid qty).1 =
                (fetch_product st up pid).2 := by
              simp [add_to_cart, hp, hf, hs, hfind]
            rw [h1, fetch_product_items]
          | none => simp [add_to_cart, hp, hf, hs, hfind] at h
  · intro h
    by_cases hq : qty < 1
    · simp [update_item_quantity, hq]
    · cases hfind : st.items.find?
        (fun it => it.id = item_id && it.session_id = sid) with
      | none => simp [update_item_quantity, hq, hfind]
      | some it0 =>
        cases hp2 : (fetch_product st up it0.product_id).1 with
        | none =>
          have h1 : (update_item_quantity st up sid item_id qty).1 =
              (fetch_product st up it0.product_id).2 := by
            simp [update_item_quantity, hq, hfind, hp2]
          rw [h1, fetch_product_items]
        | some p =>
          by_cases hstk : (!productFalsy p && p.stock.getD 0 < qty) = true
          · have h1 : (update_item_quantity st up sid item_id qty).1 =
                (fetch_product st up it0.product_id).2 := by
              simp [update_item_quantity, hq, hfind, hp2, hstk]
            rw [h1, fetch_product_items]
          · have h1 : (update_item_quantity st up sid item_id qty).1 =
                (fetch_product st up it0.product_id).2 := by
              simp [update_item_quantity, hq, hfind, hp2, hstk]
            rw [h1, fetch_product_items]
  · intro h
    cases hfind : st.items.find?
        (fun it => it.id = item_id && it.session_id = sid) with
    | none => simp [remove_item, hfind]
    | some it0 => simp [remove_item, hfind] at h

/-- C10, witness: a failing add (no configuration), a failing update
(quantity `0`) and a failing remove (missing item) each leave the
line items untouched. -/
theorem witness_C10_three_failures :
    (add_to_cart stNoCfg upNone ("s") ("pX") 1).2 =
      Except.error CartError.productNotFound ∧
    (add_to_cart stNoCfg upNone ("s") ("pX") 1).1.items = stNoCfg.items ∧
    (update_item_quantity initStore upNone ("s") 7 0).2 =
      Except.error CartError.invalidQuantity ∧
    (update_item_quantity initStore upNone ("s") 7 0).1.items =
      initStore.items ∧
    (remove_item initStore ("s") 7).2 =
      Except.error CartError.itemNotFound ∧
    (remove_item initStore ("s") 7).1.items = initStore.items := by
  have h1 := (claim_C10_failing_mutations_frame stNoCfg upNone ("s") ("pX")
    7 1 CartError.productNotFound CartError.productNotFound
    CartError.productNotFound).1 (by rfl)
  have h2 := (claim_C10_failing_mutations_frame initStore upNone ("s") ("pX")
    7 0 CartError.invalidQuantity CartError.invalidQuantity
    CartError.invalidQuantity).2.1 (by rfl)
  have h3 := (claim_C10_failing_mutations_frame initStore upNone ("s") ("pX")
    7 0 CartError.itemNotFound CartError.itemNotFound
    CartError.itemNotFound).2.2 (by rfl)
  exact ⟨by rfl, h1, by rfl, h2, by rfl, h3⟩

/-- C6, code-bug evidence: `configure_product_service` does clear the
cache, but its `INSERT OR REPLACE` (no conflicting unique key) appends
a second active configuration row instead of replacing the seeded one;
the gateway's `WHERE is_active = 1 LIMIT 1` read still returns the
original seeded endpoint, so a fetch after reconfiguration queries the
old upstream, not the new one. -/
theorem claim_C6_reconfigure_keeps_old_row :
    stReconfigured.cache = [] ∧
    (stReconfigured.configs.filter (fun cfg => cfg.is_active)).length = 2 ∧
    (activeConfig stReconfigured).map (fun cfg => cfg.endpoint) =
      some ("https://api.example.com/products") ∧
    ("https://api.example.com/products") ≠ newCfgEndpoint ∧
    (fetch_product stReconfigured upSplit ("p9")).1 = some prodOld ∧
    (fetch_product stReconfigured upSplit ("p9")).1 ≠ some prodNew :=
  ⟨rfl, by decide, by decide, by decide, by decide, by decide⟩
